import Mathlib

/-!
Verification development for the NotebookLM2PPT layout-reconstruction engine
(file notebooklm2ppt/utils/ppt_creater.py).  The Python functions are
shallowly embedded over exact rationals; rasters are total pixel maps
indexed by integer coordinates; the edge-diversity sampler is an external
collaborator and is passed in as a parameter.
-/

/-- Python int() applied to a real value: truncation toward zero. -/
def pytrunc (q : ℚ) : ℤ :=
  if 0 ≤ q then ⌊q⌋ else ⌈q⌉

/-- Python round() applied to a real value: round half to even. -/
def pyround (q : ℚ) : ℤ :=
  let f := ⌊q⌋
  if q - f < 1/2 then f
  else if 1/2 < q - f then f + 1
  else if 2 ∣ f then f else f + 1

/-- A bounding box [x1, y1, x2, y2] in document / canvas coordinates. -/
structure Bbox where
  x1 : ℚ
  y1 : ℚ
  x2 : ℚ
  y2 : ℚ
deriving DecidableEq, Repr

/-- One entry of parsing_res_list: a layout block. -/
structure Block where
  block_label : String
  block_content : String
  block_bbox : Option Bbox
deriving DecidableEq, Repr

/-- The prunedResult of one page of layoutParsingResults. -/
structure PageLayout where
  width : ℤ
  height : ℤ
  parsing_res_list : List Block
deriving DecidableEq, Repr

/-- One element of layoutParsingResults. -/
structure LayoutEntry where
  prunedResult : PageLayout
deriving DecidableEq, Repr

/-- The prunedResult of one page of ocrResults. -/
structure OCRPage where
  rec_boxes : List Bbox
deriving DecidableEq, Repr

/-- One element of ocrResults. -/
structure OCREntry where
  prunedResult : OCRPage
deriving DecidableEq, Repr

/-- One entry of dataInfo.pages. -/
structure PageInfo where
  width : ℤ
  height : ℤ
deriving DecidableEq, Repr

/-- The dataInfo record of the PaddleOCR JSON. -/
structure DataInfo where
  width : ℤ
  height : ℤ
  pages : List PageInfo
deriving DecidableEq, Repr

/-- The PaddleOCR JSON data handled by ppt_creater. -/
structure PPData where
  layoutParsingResults : List LayoutEntry
  ocrResults : List OCREntry
  dataInfo : Option DataInfo
deriving DecidableEq, Repr

/-- calculate_font_size (ppt_creater.py lines 21-46). -/
def calculate_font_size (height : ℚ) (min_font_size : ℤ := 8)
    (is_multiline : Bool := false) (line_count : ℕ := 1) : ℤ :=
  let font_size : ℚ :=
    if is_multiline = true ∧ 1 < line_count then
      let line_height := height / (line_count : ℚ)
      line_height * 0.75
    else
      height * 0.75
  max min_font_size (pytrunc font_size)

/-- Horizontal centroid of a box, (x1 + x2) / 2. -/
def cx (b : Bbox) : ℚ := (b.x1 + b.x2) / 2

/-- Vertical centroid of a box, (y1 + y2) / 2. -/
def cy (b : Bbox) : ℚ := (b.y1 + b.y2) / 2

/-- Height of a box, y2 - y1. -/
def bheight (b : Bbox) : ℚ := b.y2 - b.y1

/-- The centroid-containment test used by get_line_count (lines 62-70). -/
def centroid_in (blk : Bbox) (o : Bbox) : Bool :=
  decide (blk.x1 ≤ cx o ∧ cx o ≤ blk.x2 ∧ blk.y1 ≤ cy o ∧ cy o ≤ blk.y2)

/-- The clustering walk of get_line_count (lines 78-91): state is the
reference centroid, reference height, and running count. -/
def count_lines_loop : List Bbox → ℚ → ℚ → ℕ → ℕ
  | [], _, _, n => n
  | b :: rest, last_y_center, last_h, n =>
    if max last_h (bheight b) * 0.6 < |cy b - last_y_center| then
      count_lines_loop rest (cy b) (bheight b) (n + 1)
    else
      count_lines_loop rest last_y_center last_h n

/-- get_line_count (ppt_creater.py lines 49-92): filter the OCR boxes by
centroid containment, sort by vertical centroid (stable, as Python
list.sort is), and run the clustering walk.  Python returns 0 on an empty
contained list before sorting; sorting preserves emptiness, so the match
on the sorted list is equivalent. -/
def get_line_count (block_bbox : Bbox) (ocr_boxes : List Bbox) : ℕ :=
  match (ocr_boxes.filter (centroid_in block_bbox)).insertionSort
      (fun a b => cy a ≤ cy b) with
  | [] => 0
  | b :: rest => count_lines_loop rest (cy b) (bheight b) 1

/-- The accepted text labels of should_skip_text_block (lines 161-164). -/
def valid_labels : List String :=
  ["text", "title", "header", "footer", "reference", "paragraph_title",
   "algorithm"]

/-- Python str.lower(), on the character sequence of the string. -/
def pylower (s : String) : List Char :=
  s.toList.map Char.toLower

/-- Python str.strip(): the character sequence with leading and trailing
whitespace removed. -/
def pystrip (s : String) : List Char :=
  ((s.toList.dropWhile Char.isWhitespace).reverse.dropWhile
    Char.isWhitespace).reverse

/-- should_skip_text_block (ppt_creater.py lines 149-176). -/
def should_skip_text_block (label content : String) : Bool :=
  if label ∉ valid_labels then true
  else if label = "footer" ∧ "notebooklm".toList <:+: pylower content then true
  else if pystrip content = [] then true
  else false

/-- Text alignment of a spire text frame; only these two are used. -/
inductive TextAlignmentType where
  | Left
  | Center
deriving DecidableEq, Repr

/-- A rectangle RectangleF.FromLTRB. -/
structure RectF where
  left : ℚ
  top : ℚ
  right : ℚ
  bottom : ℚ
deriving DecidableEq, Repr

/-- The observable state of a text shape produced by create_text_shape;
spire-specific serializer settings (margins, fill, fit mode) are outside
the model. -/
structure TextShape where
  name : String
  text : String
  alignment : TextAlignmentType
  rect : RectF
  fontHeight : ℤ
  fontName : String
deriving DecidableEq, Repr

/-- create_text_shape (ppt_creater.py lines 179-258). -/
def create_text_shape (content label : String) (bbox : Bbox)
    (scale ppt_width ppt_height : ℚ) (font_size : ℤ) (font_name : String)
    (delta_y : ℚ := 2) : TextShape :=
  let left := bbox.x1 * scale
  let top := bbox.y1 * scale + delta_y
  let right := bbox.x2 * scale
  let bottom := bbox.y2 * scale + delta_y
  let alignment := if label = "paragraph_title" then TextAlignmentType.Left
    else TextAlignmentType.Center
  let h_padding : ℚ := if label = "paragraph_title" then 5 else 15
  let v_padding : ℚ := 5
  { name := "Block_" ++ label
    text := content
    alignment := alignment
    rect := { left := max 0 left
              top := max 0 (top - v_padding)
              right := min ppt_width (right + h_padding + h_padding)
              bottom := min ppt_height (bottom + v_padding) }
    fontHeight := font_size
    fontName := font_name }

/-- process_text_blocks (ppt_creater.py lines 261-306); the produced
shapes are returned in list order instead of appended to a slide. -/
def process_text_blocks (parsing_res_list : List Block)
    (ocr_boxes : List Bbox) (scale ppt_width ppt_height : ℚ)
    (font_name : String := "Calibri") : List TextShape :=
  parsing_res_list.filterMap (fun item =>
    match item.block_bbox with
    | none => none
    | some bbox =>
      if should_skip_text_block item.block_label item.block_content then none
      else
        let line_count := get_line_count bbox ocr_boxes
        let is_multiline : Bool := decide (1 < line_count)
        let height := (bbox.y2 - bbox.y1) * scale
        let font_size := calculate_font_size height 8 is_multiline line_count
        some (create_text_shape item.block_content item.block_label bbox scale
          ppt_width ppt_height font_size font_name 2))

/-- expand_bbox (ppt_creater.py lines 314-333). -/
def expand_bbox (bbox : Bbox) (expand_px : ℚ) (size : ℚ × ℚ) : Bbox :=
  { x1 := max 0 (bbox.x1 - expand_px)
    y1 := max 0 (bbox.y1 - expand_px)
    x2 := min size.1 (bbox.x2 + expand_px)
    y2 := min size.2 (bbox.y2 + expand_px) }

/-- scale_bbox (ppt_creater.py lines 336-352).  With make_int, Python
applies int() to the top-left products and int(np.ceil(..)) to the
bottom-right products. -/
def scale_bbox (bbox : Bbox) (s : ℚ) (make_int : Bool := true) : Bbox :=
  if make_int then
    { x1 := (pytrunc (bbox.x1 * s) : ℚ)
      y1 := (pytrunc (bbox.y1 * s) : ℚ)
      x2 := (⌈bbox.x2 * s⌉ : ℚ)
      y2 := (⌈bbox.y2 * s⌉ : ℚ) }
  else
    { x1 := bbox.x1 * s
      y1 := bbox.y1 * s
      x2 := bbox.x2 * s
      y2 := bbox.y2 * s }

/-- The make_int branch of scale_bbox with integer codomain, as used for
raster indexing: the tuple is (l, t, r, b). -/
def scale_bbox_int (bbox : Bbox) (s : ℚ) : ℤ × ℤ × ℤ × ℤ :=
  (pytrunc (bbox.x1 * s), pytrunc (bbox.y1 * s), ⌈bbox.x2 * s⌉, ⌈bbox.y2 * s⌉)

/-- A page raster: a total pixel map over integer coordinates (row,
column), pixel values abstracted as naturals. -/
def Raster : Type := ℤ → ℤ → ℕ

/-- The edge-diversity sampler collaborator (external to this core):
sample(raster, l, t, r, b, tolerance) yields (diversityScore, fillColor). -/
def Sampler : Type := Raster → ℤ → ℤ → ℤ → ℤ → ℕ → ℚ × ℕ

/-- A saved foreground crop: its pixel rectangle on the raster and the
cropped pixels (crop i j is the raster pixel at row t + i, column l + j). -/
structure Crop where
  label : String
  index : ℕ
  l : ℤ
  t : ℤ
  r : ℤ
  b : ℤ
  pix : ℤ → ℤ → ℕ

/-- The labels extracted as foreground assets (line 468). -/
def foreground_labels : List String := ["image", "table", "chart"]

/-- The labels erased from the background raster (lines 473-476). -/
def erasable_labels : List String :=
  ["text", "title", "header", "footer", "reference", "paragraph_title",
   "image", "table", "algorithm", "chart"]

/-- extract_foreground_element (ppt_creater.py lines 355-403), restricted
to its raster reads: it returns the saved crop, or none when the block has
no bbox or the pixel rectangle is empty or inverted.  The slide image
shape it also appends belongs to the external serializer. -/
def extract_foreground_element (item : Block) (index : ℕ)
    (image_cv : Raster) (img_scale : ℚ) (pdf_size : ℚ × ℚ) : Option Crop :=
  match item.block_bbox with
  | none => none
  | some bbox =>
    let expanded_bbox := expand_bbox bbox 2 pdf_size
    let q := scale_bbox_int expanded_bbox img_scale
    let l_img := q.1
    let t_img := q.2.1
    let r_img := q.2.2.1
    let b_img := q.2.2.2
    if r_img ≤ l_img ∨ b_img ≤ t_img then none
    else some { label := item.block_label, index := index,
                l := l_img, t := t_img, r := r_img, b := b_img,
                pix := fun i j => image_cv (t_img + i) (l_img + j) }

/-- erase_region (ppt_creater.py lines 406-435): returns whether the
erase happened together with the raster after the fill. -/
def erase_region (sampler : Sampler) (image_cv : Raster) (bbox : Bbox)
    (img_scale : ℚ) (pdf_size : ℚ × ℚ) : Bool × Raster :=
  let expanded_bbox := expand_bbox bbox 2 pdf_size
  let q := scale_bbox_int expanded_bbox img_scale
  let l := q.1
  let t := q.2.1
  let r := q.2.2.1
  let b := q.2.2.2
  if r ≤ l ∨ b ≤ t then (false, image_cv)
  else
    let fill_color := (sampler image_cv l t r b 20).2
    (true, fun y x =>
      if t ≤ y ∧ y < b ∧ l ≤ x ∧ x < r then fill_color else image_cv y x)

/-- The foreground-extraction loop of process_slide_background
(lines 466-470), carried over the shared raster state. -/
def psb_extract (img_scale : ℚ) (pdf_size : ℚ × ℚ) :
    List (ℕ × Block) → Raster × List Crop → Raster × List Crop
  | [], st => st
  | (i, item) :: rest, st =>
    if item.block_label ∈ foreground_labels then
      match extract_foreground_element item i st.1 img_scale pdf_size with
      | some c => psb_extract img_scale pdf_size rest (st.1, st.2 ++ [c])
      | none => psb_extract img_scale pdf_size rest st
    else psb_extract img_scale pdf_size rest st

/-- The erasure loop of process_slide_background (lines 478-483). -/
def psb_erase (sampler : Sampler) (img_scale : ℚ) (pdf_size : ℚ × ℚ)
    (items : List Block) (img : Raster) : Raster :=
  items.foldl (fun im item =>
    if item.block_label ∈ erasable_labels then
      match item.block_bbox with
      | some bbox => (erase_region sampler im bbox img_scale pdf_size).2
      | none => im
    else im) img

/-- process_slide_background (ppt_creater.py lines 438-497): the input
raster is the page image already resized to pdf_size (so image_w is its
pixel width); the result is the list of saved foreground crops and the
raster saved as the page background. -/
def process_slide_background (sampler : Sampler) (parsing_res_list : List Block)
    (image_cv : Raster) (image_w : ℚ) (pdf_size : ℚ × ℚ) :
    List Crop × Raster :=
  let img_scale := image_w / pdf_size.1
  let st := psb_extract img_scale pdf_size parsing_res_list.enum (image_cv, [])
  let background := psb_erase sampler img_scale pdf_size parsing_res_list st.1
  (st.2, background)

/-- The crops that foreground extraction takes when reading a fixed
raster (the specification side of claim C8). -/
def crops_of_raster (img_scale : ℚ) (pdf_size : ℚ × ℚ) (raster : Raster)
    (items : List Block) : List Crop :=
  items.enum.filterMap (fun p =>
    if p.2.block_label ∈ foreground_labels then
      extract_foreground_element p.2 p.1 raster img_scale pdf_size
    else none)

/-- update_data_size (ppt_creater.py lines 516-555): Python casts the new
width and height with int() and writes them into every page layout, the
dataInfo record, and every dataInfo page. -/
def update_data_size (d : PPData) (width : ℚ) (height : Option ℚ) : PPData :=
  let w := pytrunc width
  let h := height.map pytrunc
  { layoutParsingResults := d.layoutParsingResults.map (fun e =>
      { prunedResult := { e.prunedResult with
          width := w
          height := h.getD e.prunedResult.height } })
    ocrResults := d.ocrResults
    dataInfo := d.dataInfo.map (fun di =>
      { width := w
        height := h.getD di.height
        pages := di.pages.map (fun p =>
          { width := w, height := h.getD p.height }) }) }

/-- The per-block shift of the expand branch of make_data_wide_screen
(lines 597-602): blocks without a bbox are kept unchanged. -/
def shift_block (offset_x : ℤ) (item : Block) : Block :=
  match item.block_bbox with
  | none => item
  | some b =>
    { item with
      block_bbox := some ⟨b.x1 + offset_x, b.y1, b.x2 + offset_x, b.y2⟩ }

/-- The per-OCR-box shift of the expand branch (lines 610-614). -/
def shift_box (offset_x : ℤ) (b : Bbox) : Bbox :=
  ⟨b.x1 + offset_x, b.y1, b.x2 + offset_x, b.y2⟩

/-- The per-block step of the crop branch of make_data_wide_screen
(lines 635-645): blocks without a bbox are dropped, blocks whose bbox
does not overlap the kept band are dropped, surviving bboxes are clipped
into [0, target_width] relative to the left crop edge. -/
def crop_block (left target_width : ℤ) (item : Block) : Option Block :=
  match item.block_bbox with
  | none => none
  | some b =>
    if (left : ℚ) < b.x2 ∧ b.x1 < (left : ℚ) + (target_width : ℚ) then
      some { item with
             block_bbox := some ⟨max 0 (b.x1 - left), b.y1,
                                 min (target_width : ℚ) (b.x2 - left), b.y2⟩ }
    else none

/-- The per-OCR-box step of the crop branch (lines 656-664). -/
def crop_box (left target_width : ℤ) (b : Bbox) : Option Bbox :=
  if (left : ℚ) < b.x2 ∧ b.x1 < (left : ℚ) + (target_width : ℚ) then
    some ⟨max 0 (b.x1 - left), b.y1, min (target_width : ℚ) (b.x2 - left), b.y2⟩
  else none

/-- make_data_wide_screen (ppt_creater.py lines 557-668). -/
def make_data_wide_screen (d : PPData) : PPData :=
  match d.layoutParsingResults with
  | [] => d
  | first :: _ =>
    let pdf_w := first.prunedResult.width
    let pdf_h := first.prunedResult.height
    let target_width := pyround ((pdf_h * 16 : ℚ) / 9)
    if target_width = pdf_w then d
    else if pdf_w < target_width then
      let offset_x := (target_width - pdf_w).fdiv 2
      let d1 := update_data_size d (target_width : ℚ) none
      { d1 with
        layoutParsingResults := d1.layoutParsingResults.map (fun e =>
          { prunedResult := { e.prunedResult with
              parsing_res_list :=
                e.prunedResult.parsing_res_list.map (shift_block offset_x) } })
        ocrResults := d1.ocrResults.map (fun e =>
          { prunedResult := { rec_boxes :=
              e.prunedResult.rec_boxes.map (shift_box offset_x) } }) }
    else
      let left := (pdf_w - target_width).fdiv 2
      let d1 := update_data_size d (target_width : ℚ) none
      { d1 with
        layoutParsingResults := d1.layoutParsingResults.map (fun e =>
          { prunedResult := { e.prunedResult with
              width := target_width
              parsing_res_list :=
                e.prunedResult.parsing_res_list.filterMap
                  (crop_block left target_width) } })
        ocrResults := d1.ocrResults.map (fun e =>
          { prunedResult :=
              { rec_boxes := e.prunedResult.rec_boxes.filterMap
                  (crop_box left target_width) } }) }

/-- resize_data (ppt_creater.py lines 672-723).  The Python assert on the
two scale factors becomes an Except.error. -/
def resize_data (d : PPData) (pdf_size ppt_size : ℚ × ℚ) :
    Except String PPData :=
  let scale_x := ppt_size.1 / pdf_size.1
  let scale_y := ppt_size.2 / pdf_size.2
  if |scale_x - scale_y| < 1/100 then
    let scale := scale_x
    let d1 := update_data_size d ppt_size.1 (some ppt_size.2)
    Except.ok { d1 with
      layoutParsingResults := d1.layoutParsingResults.map (fun e =>
        { prunedResult := { e.prunedResult with
            parsing_res_list := e.prunedResult.parsing_res_list.map (fun it =>
              { it with block_bbox :=
                  it.block_bbox.map (fun b => scale_bbox b scale true) }) } })
      ocrResults := d1.ocrResults.map (fun e =>
        { prunedResult := { rec_boxes :=
            e.prunedResult.rec_boxes.map (fun b => scale_bbox b scale true) } }) }
  else Except.error "X and Y scale factors disagree"

/-- A constant sampler used for concrete witnesses: diversity 0, fill 9. -/
def sampler_w10 : Sampler := fun _ _ _ _ _ _ => (0, 9)

/-- A constant raster used for concrete witnesses: every pixel is 5. -/
def raster_w10 : Raster := fun _ _ => 5

/-- A concrete block dropped by the crop-branch witness. -/
def c4_block_a : Block := ⟨"text", "A", some ⟨0, 0, 1, 5⟩⟩

/-- A concrete block kept by the crop-branch witness. -/
def c4_block_b : Block := ⟨"text", "B", some ⟨5, 0, 10, 5⟩⟩

/-- The layout entry of the crop-branch witness: a 20 x 9 page. -/
def c4_entry : LayoutEntry := ⟨⟨20, 9, [c4_block_a, c4_block_b]⟩⟩

/-- The data of the crop-branch witness: one page, one OCR box that falls
outside the kept band. -/
def c4_data : PPData := ⟨[c4_entry], [⟨⟨[⟨0, 0, 1, 1⟩]⟩⟩], none⟩

/-- The idempotence witness data: a single already-16:9 page, 16 x 9. -/
def c5_data : PPData :=
  ⟨[⟨⟨16, 9, [⟨"text", "T", some ⟨1, 1, 5, 5⟩⟩]⟩⟩], [], none⟩

/-- Input of the resize witness and counterexample: one 7 x 7 page. -/
def c7_data : PPData := ⟨[⟨⟨7, 7, []⟩⟩], [], none⟩

/-- What resize_data makes of c7_data at canvas size (3/2, 3/2): the page
size fields hold int(3/2) = 1, not the canvas dimension 3/2. -/
def c7_out : PPData := ⟨[⟨⟨1, 1, []⟩⟩], [], none⟩

/-- The end-to-end scenario title block on the 1000 x 1000 page. -/
def scenario_title : Block :=
  ⟨"title", "Quarterly Results", some ⟨100, 50, 900, 150⟩⟩

/-- The end-to-end scenario footer block, whose content contains the
watermark marker. -/
def scenario_footer : Block :=
  ⟨"footer", "Generated by NotebookLM", some ⟨100, 950, 900, 990⟩⟩

/-- The layout list of the end-to-end scenario. -/
def scenario_items : List Block := [scenario_title, scenario_footer]

/-- A constant sampler for the scenario witness: diversity 0, fill 7. -/
def sampler_w9 : Sampler := fun _ _ _ _ _ _ => (0, 7)

/-- A constant raster for the scenario witness: every pixel is 3. -/
def raster_w9 : Raster := fun _ _ => 3

/-- A zero-width block sitting exactly on the left crop edge of the
20 x 9 counterexample page (kept band [2, 18]). -/
def c4ce_block : Block := ⟨"text", "Z", some ⟨2, 0, 2, 5⟩⟩

/-- The crop counterexample data: a 20 x 9 page whose only block is the
edge-sitting zero-width block. -/
def c4ce_data : PPData := ⟨[⟨⟨20, 9, [c4ce_block]⟩⟩], [], none⟩

/-- Claim C1: for every layout block that has a bbox, process_text_blocks
creates a text shape if and only if the block label is one of the seven
accepted text labels, the content is non-empty after stripping whitespace,
and, when the label is footer, the lowercased content does not contain the
watermark marker as a substring.  Stated as: the skip predicate accepts
exactly under those conditions; the number of produced shapes equals the
number of blocks with a bbox that pass the predicate; and a passing block
with a bbox yields exactly its text shape. -/
theorem claim_C1 :
    (∀ label content : String,
      should_skip_text_block label content = false ↔
        (label ∈ valid_labels ∧ pystrip content ≠ [] ∧
          (label = "footer" → ¬ ("notebooklm".toList <:+: pylower content))))
    ∧ (∀ (items : List Block) (ocr : List Bbox) (scale pw ph : ℚ)
        (fn : String),
        (process_text_blocks items ocr scale pw ph fn).length =
          (items.filter (fun it => it.block_bbox.isSome &&
            !should_skip_text_block it.block_label it.block_content)).length)
    ∧ (∀ (item : Block) (bbox : Bbox) (ocr : List Bbox) (scale pw ph : ℚ)
        (fn : String),
        item.block_bbox = some bbox →
        should_skip_text_block item.block_label item.block_content = false →
        process_text_blocks [item] ocr scale pw ph fn =
          [create_text_shape item.block_content item.block_label bbox scale
            pw ph
            (calculate_font_size ((bbox.y2 - bbox.y1) * scale) 8
              (decide (1 < get_line_count bbox ocr))
              (get_line_count bbox ocr)) fn 2]) := by
  refine ⟨fun label content => ?_, fun items ocr s pw ph fn => ?_,
    fun item bbox ocr s pw ph fn hb hs => ?_⟩
  · constructor
    · intro h
      unfold should_skip_text_block at h
      split_ifs at h with h1 h2 h3
      exact ⟨h1, h3, fun hf hm => h2 ⟨hf, hm⟩⟩
    · intro hc
      unfold should_skip_text_block
      rw [if_neg (not_not_intro hc.1),
        if_neg (fun h => hc.2.2 h.1 h.2), if_neg hc.2.1]
  · induction items with
    | nil => simp [process_text_blocks]
    | cons a l ih =>
      unfold process_text_blocks at ih ⊢
      rw [List.filterMap_cons, List.filter_cons]
      cases hb : a.block_bbox with
      | none => simp [hb, ih]
      | some bb =>
        by_cases hs : should_skip_text_block a.block_label a.block_content
        · simp [hb, hs, ih]
        · simp [hb, hs, ih]
  · unfold process_text_blocks
    rw [List.filterMap_cons, List.filterMap_nil]
    rw [hb]
    simp [hs]

/-- Witness for claim C1: a concrete accepted title block with a bbox
yields exactly its text shape. -/
theorem claim_C1_witness :
    process_text_blocks [⟨"title", "Hello", some ⟨0, 0, 10, 10⟩⟩] [] 1 100 100
        "Calibri" =
      [create_text_shape "Hello" "title" ⟨0, 0, 10, 10⟩ 1 100 100
        (calculate_font_size (((10 : ℚ) - 0) * 1) 8
          (decide (1 < get_line_count ⟨0, 0, 10, 10⟩ []))
          (get_line_count ⟨0, 0, 10, 10⟩ [])) "Calibri" 2] :=
  claim_C1.2.2 ⟨"title", "Hello", some ⟨0, 0, 10, 10⟩⟩ ⟨0, 0, 10, 10⟩ [] 1 100
    100 "Calibri" rfl (by decide)

/-- Counterexample for claim C3: at height 41 and line count 1 the code
returns 30, not the claimed max(8, 41 * 0.75) = 30.75, because Python
truncates the product with int() before clamping. -/
theorem claim_C3_counterexample :
    calculate_font_size 41 8 false 1 = 30 ∧
    ((calculate_font_size 41 8 false 1 : ℤ) : ℚ) ≠ max 8 (41 * 0.75) := by
  constructor
  · norm_num [calculate_font_size, pytrunc]
  · norm_num [calculate_font_size, pytrunc]

/-- Claim C3 (amended): the font-size function returns the integer
truncation of (height / lineCount) * 0.75 when the multiline flag is set
with lineCount > 1 (as process_text_blocks sets it) and of height * 0.75
otherwise, clamped below by the configured minimum font size; in
particular fontSize(40, 1) = 30 and fontSize(40, 2) = 15. -/
theorem claim_C3 :
    (∀ (height : ℚ) (lc : ℕ) (m : ℤ),
      calculate_font_size height m (decide (1 < lc)) lc =
        max m (pytrunc (if 1 < lc then height / (lc : ℚ) * 0.75
          else height * 0.75)))
    ∧ calculate_font_size 40 8 false 1 = 30
    ∧ calculate_font_size 40 8 true 2 = 15 := by
  refine ⟨fun height lc m => ?_, ?_, ?_⟩
  · unfold calculate_font_size
    by_cases h : 1 < lc
    · simp [h]
    · simp [h]
  · norm_num [calculate_font_size, pytrunc]
  · norm_num [calculate_font_size, pytrunc]

/-- Counterexample for claim C6: for the bbox (-1, -1, 0, 0) at scale 1/2
the make_int result has x1 = 0, which neither equals the floor of
-1 * (1/2) = -1 nor satisfies containment (0 is not ≤ -1/2), because
Python int() truncates toward zero rather than flooring. -/
theorem claim_C6_counterexample :
    (scale_bbox ⟨-1, -1, 0, 0⟩ (1/2) true).x1 = 0 ∧
    (⌊(-1 : ℚ) * (1/2)⌋ : ℚ) = -1 ∧
    ¬ ((scale_bbox ⟨-1, -1, 0, 0⟩ (1/2) true).x1 ≤ (-1 : ℚ) * (1/2)) := by
  have hc : ⌈(-1 : ℚ) * (1/2)⌉ = 0 := by
    rw [Int.ceil_eq_iff] <;> norm_num
  have hc2 : ⌈(-(1/2) : ℚ)⌉ = 0 := by
    rw [Int.ceil_eq_iff] <;> norm_num
  refine ⟨?_, ?_, ?_⟩
  · norm_num [scale_bbox, pytrunc, hc, hc2]
  · norm_num
  · norm_num [scale_bbox, pytrunc, hc, hc2]

/-- Claim C6 (amended): for every bbox with nonnegative top-left
coordinates and every nonnegative scale factor, scale_bbox with make_int
floors the top-left pair, ceils the bottom-right pair, and the resulting
integer rectangle contains the exact geometric scaling of the box. -/
theorem claim_C6 (b : Bbox) (s : ℚ) (hx : 0 ≤ b.x1) (hy : 0 ≤ b.y1)
    (hs : 0 ≤ s) :
    (scale_bbox b s true).x1 = (⌊b.x1 * s⌋ : ℚ) ∧
    (scale_bbox b s true).y1 = (⌊b.y1 * s⌋ : ℚ) ∧
    (scale_bbox b s true).x2 = (⌈b.x2 * s⌉ : ℚ) ∧
    (scale_bbox b s true).y2 = (⌈b.y2 * s⌉ : ℚ) ∧
    (scale_bbox b s true).x1 ≤ b.x1 * s ∧
    (scale_bbox b s true).y1 ≤ b.y1 * s ∧
    b.x2 * s ≤ (scale_bbox b s true).x2 ∧
    b.y2 * s ≤ (scale_bbox b s true).y2 := by
  have hx1 : (0 : ℚ) ≤ b.x1 * s := mul_nonneg hx hs
  have hy1 : (0 : ℚ) ≤ b.y1 * s := mul_nonneg hy hs
  unfold scale_bbox
  rw [if_pos (rfl : true = true)]
  unfold pytrunc
  rw [if_pos hx1, if_pos hy1]
  exact ⟨rfl, rfl, rfl, rfl, Int.floor_le _, Int.floor_le _,
    Int.le_ceil _, Int.le_ceil _⟩

/-- Witness for claim C6: the amended statement at the bbox
(1/2, 1/2, 3/2, 3/2) and scale 2. -/
theorem claim_C6_witness :
    (scale_bbox ⟨1/2, 1/2, 3/2, 3/2⟩ 2 true).x1 ≤ (1/2 : ℚ) * 2 ∧
    (3/2 : ℚ) * 2 ≤ (scale_bbox ⟨1/2, 1/2, 3/2, 3/2⟩ 2 true).x2 := by
  have h := claim_C6 ⟨1/2, 1/2, 3/2, 3/2⟩ 2 (by norm_num) (by norm_num)
    (by norm_num)
  exact ⟨h.2.2.2.2.1, h.2.2.2.2.2.2.1⟩

/-- One step of the clustering walk as the specification words it: start
a new line exactly when the candidate centroid is farther from the
reference centroid than 0.6 times the larger of the reference height and
the candidate height, resetting the reference on a new line. -/
def line_walk_step (st : ℚ × ℚ × ℕ) (bb : Bbox) : ℚ × ℚ × ℕ :=
  if 0.6 * max st.2.1 (bheight bb) < |cy bb - st.1| then
    (cy bb, bheight bb, st.2.2 + 1)
  else st

/-- The clustering walk over an already-selected, already-sorted list of
line boxes, as the specification words it. -/
def line_cluster_walk (l : List Bbox) : ℕ :=
  match l with
  | [] => 0
  | b :: rest => (rest.foldl line_walk_step (cy b, bheight b, 1)).2.2

/-- The running count of count_lines_loop never decreases. -/
theorem count_lines_loop_ge (l : List Bbox) :
    ∀ (c h : ℚ) (n : ℕ), n ≤ count_lines_loop l c h n := by
  induction l with
  | nil => intro c h n; exact le_refl n
  | cons b rest ih =>
    intro c h n
    unfold count_lines_loop
    split_ifs
    · exact le_trans (Nat.le_succ n) (ih (cy b) (bheight b) (n + 1))
    · exact ih c h n

/-- count_lines_loop agrees with the foldl form of the walk. -/
theorem count_lines_loop_eq_foldl (l : List Bbox) :
    ∀ (c h : ℚ) (n : ℕ),
      count_lines_loop l c h n = (l.foldl line_walk_step (c, h, n)).2.2 := by
  induction l with
  | nil => intro c h n; rfl
  | cons b rest ih =>
    intro c h n
    have hcond : (0.6 * max h (bheight b) < |cy b - c|) ↔
        (max h (bheight b) * 0.6 < |cy b - c|) := by rw [mul_comm]
    unfold count_lines_loop
    rw [List.foldl_cons]
    by_cases hc : max h (bheight b) * 0.6 < |cy b - c|
    · rw [if_pos hc]
      have hstep : line_walk_step (c, h, n) b = (cy b, bheight b, n + 1) := by
        unfold line_walk_step
        exact if_pos (hcond.mpr hc)
      rw [hstep]
      exact ih (cy b) (bheight b) (n + 1)
    · rw [if_neg hc]
      have hstep : line_walk_step (c, h, n) b = (c, h, n) := by
        unfold line_walk_step
        exact if_neg (fun hx => hc (hcond.mp hx))
      rw [hstep]
      exact ih c h n

/-- When every element is at gap more than 0.6 times the common height
from its predecessor, every step of the loop opens a new line. -/
theorem count_lines_loop_chain (h : ℚ) (l : List Bbox) :
    ∀ (b0 : Bbox) (n : ℕ), (∀ b ∈ l, bheight b = h) → bheight b0 = h →
      List.Chain (fun a b => 0.6 * h < |cy b - cy a|) b0 l →
      count_lines_loop l (cy b0) (bheight b0) n = n + l.length := by
  induction l with
  | nil => intro b0 n _ _ _; simp [count_lines_loop]
  | cons b rest ih =>
    intro b0 n hall hb0 hchain
    rcases hchain with _ | ⟨hgap, hchain⟩
    have hb : bheight b = h := hall b (List.mem_cons_self b rest)
    unfold count_lines_loop
    rw [if_pos]
    · rw [ih b (n + 1) (fun x hx => hall x (List.mem_cons_of_mem b hx)) hb
        hchain]
      simp [List.length_cons]
      omega
    · rw [hb0, hb, max_self, mul_comm]
      exact hgap

/-- When every element stays within 0.6 times the common height of the
reference centroid, the loop never opens a new line. -/
theorem count_lines_loop_stay (h c0 : ℚ) (l : List Bbox) :
    ∀ n : ℕ, (∀ b ∈ l, bheight b = h ∧ |cy b - c0| ≤ 0.6 * h) →
      count_lines_loop l c0 h n = n := by
  induction l with
  | nil => intro n _; rfl
  | cons b rest ih =>
    intro n hall
    have hb := hall b (List.mem_cons_self b rest)
    unfold count_lines_loop
    rw [if_neg]
    · exact ih n (fun x hx => hall x (List.mem_cons_of_mem b hx))
    · rw [hb.1, max_self, mul_comm]
      exact not_lt.mpr hb.2

/-- Claim C2 (amended): get_line_count selects exactly the OCR boxes
whose centroid lies inside the block bbox (returning 0 exactly when none
is selected and depending only on the selected boxes); on a selected,
sorted list it computes the clustering walk that starts a new line
exactly when the centroid distance to the reference exceeds 0.6 times
the larger of the reference height and the current height, resetting the
reference at each new line; N equal-height lines with consecutive
centroid gaps above 0.6 times the height count N; and equal-height lines
whose centroids all lie within 0.6 times the height of the first line
centroid count 1. -/
theorem claim_C2 :
    (∀ (blk : Bbox) (ocr : List Bbox),
      get_line_count blk ocr = 0 ↔ ocr.filter (centroid_in blk) = [])
    ∧ (∀ (blk : Bbox) (ocr : List Bbox),
      get_line_count blk ocr =
        get_line_count blk (ocr.filter (centroid_in blk)))
    ∧ (∀ (blk : Bbox) (l : List Bbox),
      List.Sorted (fun a b => cy a ≤ cy b) l →
      (∀ b ∈ l, centroid_in blk b = true) →
      get_line_count blk l = line_cluster_walk l)
    ∧ (∀ (blk : Bbox) (l : List Bbox) (h : ℚ),
      (∀ b ∈ l, bheight b = h ∧ centroid_in blk b = true) →
      List.Sorted (fun a b => cy a ≤ cy b) l →
      List.Chain' (fun a b => 0.6 * h < |cy b - cy a|) l →
      get_line_count blk l = l.length)
    ∧ (∀ (blk b0 : Bbox) (rest : List Bbox) (h : ℚ),
      (∀ b ∈ b0 :: rest, bheight b = h ∧ centroid_in blk b = true) →
      List.Sorted (fun a b => cy a ≤ cy b) (b0 :: rest) →
      (∀ b ∈ rest, |cy b - cy b0| ≤ 0.6 * h) →
      get_line_count blk (b0 :: rest) = 1) := by
  refine ⟨fun blk ocr => ?_, fun blk ocr => ?_, fun blk l hsort hall => ?_,
    fun blk l h hall hsort hchain => ?_, fun blk b0 rest h hall hsort hgap => ?_⟩
  · unfold get_line_count
    rcases hs : (List.filter (centroid_in blk) ocr).insertionSort
        (fun a b => cy a ≤ cy b) with _ | ⟨b, rest⟩
    · have hp := List.perm_insertionSort (fun a b => cy a ≤ cy b)
        (List.filter (centroid_in blk) ocr)
      rw [hs] at hp
      simp only [true_iff]
      exact hp.symm.eq_nil
    · have hp := List.perm_insertionSort (fun a b => cy a ≤ cy b)
        (List.filter (centroid_in blk) ocr)
      rw [hs] at hp
      constructor
      · intro h0
        have h0' : count_lines_loop rest (cy b) (bheight b) 1 = 0 := h0
        have h1 := count_lines_loop_ge rest (cy b) (bheight b) 1
        omega
      · intro hf
        rw [hf] at hp
        exact absurd hp.eq_nil (by simp)
  · unfold get_line_count
    rw [List.filter_filter]
    have hpred : (fun a => centroid_in blk a && centroid_in blk a) =
        fun a => centroid_in blk a := by
      funext a
      exact Bool.and_self _
    rw [hpred]
  · have hfilter : l.filter (centroid_in blk) = l :=
      List.filter_eq_self.mpr hall
    unfold get_line_count
    rw [hfilter, List.Sorted.insertionSort_eq hsort]
    cases l with
    | nil => rfl
    | cons b rest =>
      unfold line_cluster_walk
      exact count_lines_loop_eq_foldl rest (cy b) (bheight b) 1
  · have hfilter : l.filter (centroid_in blk) = l :=
      List.filter_eq_self.mpr (fun b hb => (hall b hb).2)
    unfold get_line_count
    rw [hfilter, List.Sorted.insertionSort_eq hsort]
    cases l with
    | nil => rfl
    | cons b0 rest =>
      have hb0 : bheight b0 = h := (hall b0 (List.mem_cons_self b0 rest)).1
      have hrest : ∀ b ∈ rest, bheight b = h :=
        fun b hb => (hall b (List.mem_cons_of_mem b0 hb)).1
      have hchain2 : List.Chain (fun a b => 0.6 * h < |cy b - cy a|) b0 rest :=
        hchain
      show count_lines_loop rest (cy b0) (bheight b0) 1 = (b0 :: rest).length
      rw [count_lines_loop_chain h rest b0 1 hrest hb0 hchain2]
      simp [List.length_cons]
      omega
  · have hfilter : (b0 :: rest).filter (centroid_in blk) = b0 :: rest :=
      List.filter_eq_self.mpr (fun b hb => (hall b hb).2)
    unfold get_line_count
    rw [hfilter, List.Sorted.insertionSort_eq hsort]
    have hb0 : bheight b0 = h := (hall b0 (List.mem_cons_self b0 rest)).1
    show count_lines_loop rest (cy b0) (bheight b0) 1 = 1
    rw [hb0]
    exact count_lines_loop_stay h (cy b0) rest 1
      (fun b hb => ⟨(hall b (List.mem_cons_of_mem b0 hb)).1, hgap b hb⟩)

/-- Counterexample for claim C2: three equal-height (10) lines whose
consecutive vertical centroid gaps are 5 < 0.6 * 10 = 6 produce a count
of 2, not the claimed 1: the reference centroid only resets when a new
line starts, so the distance to the first line accumulates past the
threshold. -/
theorem claim_C2_counterexample :
    get_line_count ⟨0, 0, 100, 100⟩
      [⟨0, 0, 10, 10⟩, ⟨0, 5, 10, 15⟩, ⟨0, 10, 10, 20⟩] = 2 ∧ (2 : ℕ) ≠ 1 := by
  constructor
  · have hfilter :
        ([⟨0, 0, 10, 10⟩, ⟨0, 5, 10, 15⟩, ⟨0, 10, 10, 20⟩] : List Bbox).filter
          (centroid_in ⟨0, 0, 100, 100⟩) =
          [⟨0, 0, 10, 10⟩, ⟨0, 5, 10, 15⟩, ⟨0, 10, 10, 20⟩] := by
      apply List.filter_eq_self.mpr
      intro b hb
      fin_cases hb <;> norm_num [centroid_in, cx, cy]
    have hsort : List.Sorted (fun a b => cy a ≤ cy b)
        ([⟨0, 0, 10, 10⟩, ⟨0, 5, 10, 15⟩, ⟨0, 10, 10, 20⟩] : List Bbox) := by
      simp only [List.sorted_cons, List.mem_cons, List.mem_singleton,
        List.not_mem_nil, List.sorted_nil]
      norm_num [cy]
    unfold get_line_count
    rw [hfilter, List.Sorted.insertionSort_eq hsort]
    show count_lines_loop [⟨0, 5, 10, 15⟩, ⟨0, 10, 10, 20⟩]
      (cy ⟨0, 0, 10, 10⟩) (bheight ⟨0, 0, 10, 10⟩) 1 = 2
    norm_num [count_lines_loop, cy, bheight]
  · norm_num

/-- Witness for claim C2: two equal-height lines with centroid gap 20,
above the 0.6 * 10 = 6 threshold, count as 2 lines. -/
theorem claim_C2_witness :
    get_line_count ⟨0, 0, 100, 100⟩ [⟨0, 0, 10, 10⟩, ⟨0, 20, 10, 30⟩] = 2 := by
  have hall : ∀ b ∈ ([⟨0, 0, 10, 10⟩, ⟨0, 20, 10, 30⟩] : List Bbox),
      bheight b = 10 ∧ centroid_in ⟨0, 0, 100, 100⟩ b = true := by
    intro b hb
    fin_cases hb <;> refine ⟨by norm_num [bheight], ?_⟩ <;>
      norm_num [centroid_in, cx, cy]
  have hsort : List.Sorted (fun a b => cy a ≤ cy b)
      ([⟨0, 0, 10, 10⟩, ⟨0, 20, 10, 30⟩] : List Bbox) := by
    simp only [List.sorted_cons, List.mem_cons, List.mem_singleton,
      List.not_mem_nil, List.sorted_nil]
    norm_num [cy]
  have hchain : List.Chain' (fun a b => 0.6 * (10 : ℚ) < |cy b - cy a|)
      ([⟨0, 0, 10, 10⟩, ⟨0, 20, 10, 30⟩] : List Bbox) := by
    simp only [List.chain'_cons, List.chain'_singleton, and_true]
    norm_num [cy]
  exact (claim_C2.2.2.2.1 ⟨0, 0, 100, 100⟩ _ 10 hall hsort hchain).trans rfl

/-- Claim C10: erase_region modifies only the pixels inside the scaled,
expanded rectangle [l, r) x [t, b): every pixel inside is set to the one
sampled fill color and every pixel outside keeps its previous value; when
the rectangle is empty or inverted the function returns false and leaves
the raster unchanged. -/
theorem claim_C10 (sampler : Sampler) (image_cv : Raster) (bbox : Bbox)
    (img_scale : ℚ) (pdf_size : ℚ × ℚ) (l t r b : ℤ)
    (hq : scale_bbox_int (expand_bbox bbox 2 pdf_size) img_scale =
      (l, t, r, b)) :
    ((r ≤ l ∨ b ≤ t) →
      erase_region sampler image_cv bbox img_scale pdf_size =
        (false, image_cv))
    ∧ (l < r → t < b →
      (erase_region sampler image_cv bbox img_scale pdf_size).1 = true ∧
      (∀ y x : ℤ, t ≤ y → y < b → l ≤ x → x < r →
        (erase_region sampler image_cv bbox img_scale pdf_size).2 y x =
          (sampler image_cv l t r b 20).2) ∧
      (∀ y x : ℤ, ¬ (t ≤ y ∧ y < b ∧ l ≤ x ∧ x < r) →
        (erase_region sampler image_cv bbox img_scale pdf_size).2 y x =
          image_cv y x)) := by
  simp only [erase_region]
  rw [hq]
  constructor
  · intro hdeg
    rw [if_pos hdeg]
  · intro hlr htb
    have hneg : ¬ (r ≤ l ∨ b ≤ t) := by
      push_neg
      exact ⟨hlr, htb⟩
    rw [if_neg hneg]
    refine ⟨rfl, fun y x h1 h2 h3 h4 => ?_, fun y x hout => ?_⟩
    · show (if t ≤ y ∧ y < b ∧ l ≤ x ∧ x < r
          then (sampler image_cv l t r b 20).2 else image_cv y x) =
        (sampler image_cv l t r b 20).2
      rw [if_pos ⟨h1, h2, h3, h4⟩]
    · show (if t ≤ y ∧ y < b ∧ l ≤ x ∧ x < r
          then (sampler image_cv l t r b 20).2 else image_cv y x) =
        image_cv y x
      rw [if_neg hout]

/-- Witness for claim C10: for the bbox (2, 2, 4, 4) at scale 1 on a
10 x 10 page the erase succeeds, an inside pixel takes the sampled fill
color 9, and an outside pixel keeps its previous value 5. -/
theorem claim_C10_witness :
    (erase_region sampler_w10 raster_w10 ⟨2, 2, 4, 4⟩ 1 (10, 10)).1 = true ∧
    (erase_region sampler_w10 raster_w10 ⟨2, 2, 4, 4⟩ 1 (10, 10)).2 3 3 = 9 ∧
    (erase_region sampler_w10 raster_w10 ⟨2, 2, 4, 4⟩ 1 (10, 10)).2 7 7 = 5 := by
  have hq : scale_bbox_int (expand_bbox ⟨2, 2, 4, 4⟩ 2 (10, 10)) 1 =
      ((0 : ℤ), (0 : ℤ), (6 : ℤ), (6 : ℤ)) := by
    norm_num [scale_bbox_int, expand_bbox, pytrunc]
  have h := claim_C10 sampler_w10 raster_w10 ⟨2, 2, 4, 4⟩ 1 (10, 10) 0 0 6 6 hq
  obtain ⟨-, h2⟩ := h
  obtain ⟨ht, hin, hout⟩ := h2 (by norm_num) (by norm_num)
  refine ⟨ht, ?_, ?_⟩
  · rw [hin 3 3 (by norm_num) (by norm_num) (by norm_num) (by norm_num)]
    rfl
  · rw [hout 7 7 (by omega)]
    rfl

/-- The extraction loop never mutates the raster and appends, in list
order, exactly the crops read from that raster. -/
theorem psb_extract_spec (img_scale : ℚ) (pdf_size : ℚ × ℚ) :
    ∀ (l : List (ℕ × Block)) (img : Raster) (acc : List Crop),
      psb_extract img_scale pdf_size l (img, acc) =
        (img, acc ++ l.filterMap (fun p =>
          if p.2.block_label ∈ foreground_labels then
            extract_foreground_element p.2 p.1 img img_scale pdf_size
          else none)) := by
  intro l
  induction l with
  | nil =>
    intro img acc
    simp [psb_extract]
  | cons p rest ih =>
    intro img acc
    obtain ⟨i, item⟩ := p
    unfold psb_extract
    by_cases hl : item.block_label ∈ foreground_labels
    · rw [if_pos hl]
      cases hx : extract_foreground_element item i img img_scale pdf_size with
      | none =>
        rw [ih]
        simp [List.filterMap_cons, hl, hx]
      | some c =>
        dsimp only
        rw [ih img (acc ++ [c])]
        simp [List.filterMap_cons, hl, hx, List.append_assoc,
          List.singleton_append]
    · rw [if_neg hl]
      rw [ih]
      simp [List.filterMap_cons, hl]

/-- Claim C8: within one page background pass, every foreground crop is
read from the raster before any erasure mutates it (the saved crops equal
the crops of the resized input raster), and the background is the input
raster with every erasable block erased in layout-list order. -/
theorem claim_C8 (sampler : Sampler) (items : List Block) (raster : Raster)
    (image_w : ℚ) (pdf_size : ℚ × ℚ) :
    (process_slide_background sampler items raster image_w pdf_size).1 =
      crops_of_raster (image_w / pdf_size.1) pdf_size raster items
    ∧ (process_slide_background sampler items raster image_w pdf_size).2 =
      psb_erase sampler (image_w / pdf_size.1) pdf_size items raster := by
  constructor
  · simp only [process_slide_background]
    rw [psb_extract_spec]
    simp [crops_of_raster]
  · simp only [process_slide_background]
    rw [psb_extract_spec]

/-- Claim C4 (amended): in the crop branch of make_data_wide_screen
(target width below the page width, left = (w - target) / 2 by integer
floor division, right = left + target), every page block list becomes the
filterMap of the per-block crop step and every OCR box list the filterMap
of the per-box crop step, independently; the per-block step keeps a block
with a bbox iff the bbox overlaps [left, right], rewrites kept
x-coordinates to [max(0, x1 - left), min(target, x2 - left)], and keeps,
with its width preserved exactly, every box lying entirely inside
[left, right] that also overlaps it; the only entirely-inside boxes
dropped are zero-width boxes (x1 = x2) sitting exactly on a crop edge. -/
theorem claim_C4 (d : PPData) (first : LayoutEntry) (rest : List LayoutEntry)
    (w h target left right : ℤ)
    (hlist : d.layoutParsingResults = first :: rest)
    (hw : w = first.prunedResult.width)
    (hh : h = first.prunedResult.height)
    (htarget : target = pyround ((h * 16 : ℚ) / 9))
    (hlt : target < w)
    (hleft : left = (w - target).fdiv 2)
    (hright : right = left + target) :
    ((make_data_wide_screen d).layoutParsingResults.map
        (fun e => e.prunedResult.parsing_res_list) =
      d.layoutParsingResults.map
        (fun e => e.prunedResult.parsing_res_list.filterMap
          (crop_block left target)))
    ∧ ((make_data_wide_screen d).ocrResults.map
        (fun e => e.prunedResult.rec_boxes) =
      d.ocrResults.map
        (fun e => e.prunedResult.rec_boxes.filterMap (crop_box left target)))
    ∧ (∀ (it : Block) (b : Bbox), it.block_bbox = some b →
        (crop_block left target it = none ↔
          (b.x2 ≤ (left : ℚ) ∨ (right : ℚ) ≤ b.x1)))
    ∧ (∀ (it : Block) (b : Bbox), it.block_bbox = some b →
        (left : ℚ) < b.x2 → b.x1 < (right : ℚ) →
        crop_block left target it =
          some { it with
                 block_bbox := some ⟨max 0 (b.x1 - left), b.y1,
                                     min (target : ℚ) (b.x2 - left), b.y2⟩ })
    ∧ (∀ (it : Block) (b : Bbox), it.block_bbox = some b →
        (left : ℚ) ≤ b.x1 → b.x2 ≤ (right : ℚ) →
        (left : ℚ) < b.x2 → b.x1 < (right : ℚ) →
        ∃ b2 : Bbox, crop_block left target it =
          some { it with block_bbox := some b2 } ∧
          b2.x2 - b2.x1 = b.x2 - b.x1)
    ∧ (∀ (it : Block) (b : Bbox), it.block_bbox = some b → b.x1 ≤ b.x2 →
        (left : ℚ) ≤ b.x1 → b.x2 ≤ (right : ℚ) →
        crop_block left target it = none →
        b.x1 = b.x2 ∧ (b.x1 = (left : ℚ) ∨ b.x2 = (right : ℚ)))
    ∧ (∀ b : Bbox, crop_box left target b = none ↔
        (b.x2 ≤ (left : ℚ) ∨ (right : ℚ) ≤ b.x1)) := by
  have hcast : (right : ℚ) = (left : ℚ) + (target : ℚ) := by
    rw [hright]
    push_cast
    ring
  have hne : ¬ (target = w) := by omega
  have hngt : ¬ (w < target) := by omega
  refine ⟨?_, ?_, ?_, ?_, ?_, ?_, ?_⟩
  · unfold make_data_wide_screen
    rw [hlist]
    dsimp only
    rw [← hw, ← hh, ← htarget, ← hleft]
    rw [if_neg hne, if_neg hngt]
    unfold update_data_size
    dsimp only
    rw [hlist]
    simp only [List.map_cons, List.map_map]
    rfl
  · unfold make_data_wide_screen
    rw [hlist]
    dsimp only
    rw [← hw, ← hh, ← htarget, ← hleft]
    rw [if_neg hne, if_neg hngt]
    unfold update_data_size
    dsimp only
    simp only [List.map_map]
    rfl
  · intro it b hb
    unfold crop_block
    rw [hb]
    dsimp only
    by_cases hov : (left : ℚ) < b.x2 ∧ b.x1 < (left : ℚ) + (target : ℚ)
    · rw [if_pos hov]
      simp only [reduceCtorEq, false_iff]
      rw [hcast]
      push_neg
      exact ⟨hov.1, hov.2⟩
    · rw [if_neg hov]
      simp only [true_iff]
      rw [hcast]
      by_contra hc
      push_neg at hc
      exact hov ⟨hc.1, hc.2⟩
  · intro it b hb h1 h2
    unfold crop_block
    rw [hb]
    dsimp only
    rw [if_pos ⟨h1, by rw [← hcast]; exact h2⟩]
  · intro it b hb h1 h2 h3 h4
    have hov : (left : ℚ) < b.x2 ∧ b.x1 < (left : ℚ) + (target : ℚ) := by
      rw [hcast] at h4
      exact ⟨h3, h4⟩
    refine ⟨⟨max 0 (b.x1 - left), b.y1, min (target : ℚ) (b.x2 - left), b.y2⟩,
      ?_, ?_⟩
    · unfold crop_block
      rw [hb]
      dsimp only
      rw [if_pos hov]
    · rw [hcast] at h2
      have hm1 : max (0 : ℚ) (b.x1 - left) = b.x1 - left := by
        rw [max_eq_right]
        linarith
      have hm2 : min ((target : ℚ)) (b.x2 - left) = b.x2 - left := by
        rw [min_eq_right]
        linarith
      dsimp only
      rw [hm1, hm2]
      ring
  · intro it b hb hx12 h1 h2 hnone
    have hdisj : b.x2 ≤ (left : ℚ) ∨ (left : ℚ) + (target : ℚ) ≤ b.x1 := by
      by_contra hc
      push_neg at hc
      unfold crop_block at hnone
      rw [hb] at hnone
      dsimp only at hnone
      rw [if_pos ⟨hc.1, hc.2⟩] at hnone
      exact absurd hnone (by simp)
    rw [hcast] at h2
    rcases hdisj with hd | hd
    · constructor
      · linarith
      · left
        linarith
    · constructor
      · linarith
      · right
        rw [hcast]
        linarith
  · intro b
    unfold crop_box
    by_cases hov : (left : ℚ) < b.x2 ∧ b.x1 < (left : ℚ) + (target : ℚ)
    · rw [if_pos hov]
      simp only [reduceCtorEq, false_iff]
      rw [hcast]
      push_neg
      exact ⟨hov.1, hov.2⟩
    · rw [if_neg hov]
      simp only [true_iff]
      rw [hcast]
      by_contra hc
      push_neg at hc
      exact hov ⟨hc.1, hc.2⟩

/-- Witness for claim C4: on a 20 x 9 page the 16:9 target width is 16,
the kept band is [2, 18]; the block at (0,0,1,5) is dropped, the block at
(5,0,10,5) is clipped to (3,0,8,5), and the OCR box at (0,0,1,1) is
dropped. -/
theorem claim_C4_witness :
    (make_data_wide_screen c4_data).layoutParsingResults.map
        (fun e => e.prunedResult.parsing_res_list) =
      [[{ c4_block_b with block_bbox := some ⟨3, 0, 8, 5⟩ }]] ∧
    (make_data_wide_screen c4_data).ocrResults.map
        (fun e => e.prunedResult.rec_boxes) = [[]] := by
  have htarget : (16 : ℤ) = pyround (((9 : ℤ) * 16 : ℚ) / 9) := by
    have hq : (((9 : ℤ) * 16 : ℚ) / 9) = 16 := by norm_num
    rw [hq]
    unfold pyround
    norm_num
  have h := claim_C4 c4_data c4_entry [] 20 9 16 2 18 rfl rfl rfl htarget
    (by norm_num) (by decide) (by decide)
  constructor
  · rw [h.1]
    show [(c4_data.layoutParsingResults.head (by simp [c4_data])
      ).prunedResult.parsing_res_list.filterMap (crop_block 2 16)] = _
    simp only [c4_data, c4_entry, c4_block_a, c4_block_b, List.head_cons,
      List.filterMap_cons, List.filterMap_nil]
    norm_num [crop_block]
  · rw [h.2.1]
    simp only [c4_data, List.map_cons, List.map_nil, List.filterMap_cons,
      List.filterMap_nil]
    norm_num [crop_box]

/-- Python int() of an integer-valued rational is the integer itself. -/
theorem pytrunc_intCast (n : ℤ) : pytrunc (n : ℚ) = n := by
  unfold pytrunc
  by_cases h : (0 : ℚ) ≤ (n : ℚ)
  · rw [if_pos h, Int.floor_intCast]
  · rw [if_neg h, Int.ceil_intCast]

/-- Whatever branch make_data_wide_screen takes, the output still has a
first page, its height is unchanged, and its width equals the 16:9
target computed from that height. -/
theorem make_first_page (d : PPData) (first : LayoutEntry)
    (rest : List LayoutEntry)
    (hlist : d.layoutParsingResults = first :: rest) :
    ∃ (first2 : LayoutEntry) (rest2 : List LayoutEntry),
      (make_data_wide_screen d).layoutParsingResults = first2 :: rest2 ∧
      first2.prunedResult.height = first.prunedResult.height ∧
      first2.prunedResult.width =
        pyround ((first.prunedResult.height * 16 : ℚ) / 9) := by
  unfold make_data_wide_screen
  rw [hlist]
  dsimp only
  split_ifs with h1 h2
  · exact ⟨first, rest, hlist, rfl, h1.symm⟩
  · unfold update_data_size
    dsimp only
    rw [hlist]
    simp only [List.map_cons, List.map_map]
    refine ⟨_, _, rfl, rfl, ?_⟩
    exact pytrunc_intCast _
  · unfold update_data_size
    dsimp only
    rw [hlist]
    simp only [List.map_cons, List.map_map]
    exact ⟨_, _, rfl, rfl, rfl⟩

/-- Claim C5: make_data_wide_screen is idempotent.  When the first page
width already equals the 16:9 target round(height * 16 / 9) the data is
returned unchanged, and applying the pass twice always yields the same
result as applying it once. -/
theorem claim_C5 :
    (∀ (d : PPData) (first : LayoutEntry) (rest : List LayoutEntry),
      d.layoutParsingResults = first :: rest →
      first.prunedResult.width =
        pyround ((first.prunedResult.height * 16 : ℚ) / 9) →
      make_data_wide_screen d = d)
    ∧ (∀ d : PPData,
      make_data_wide_screen (make_data_wide_screen d) =
        make_data_wide_screen d) := by
  have noop : ∀ (d : PPData) (first : LayoutEntry) (rest : List LayoutEntry),
      d.layoutParsingResults = first :: rest →
      first.prunedResult.width =
        pyround ((first.prunedResult.height * 16 : ℚ) / 9) →
      make_data_wide_screen d = d := by
    intro d first rest hlist hw
    unfold make_data_wide_screen
    rw [hlist]
    dsimp only
    rw [if_pos hw.symm]
  refine ⟨noop, fun d => ?_⟩
  cases hd : d.layoutParsingResults with
  | nil =>
    have h1 : make_data_wide_screen d = d := by
      unfold make_data_wide_screen
      rw [hd]
    rw [h1]
    exact h1
  | cons first rest =>
    obtain ⟨first2, rest2, hl2, hh2, hw2⟩ := make_first_page d first rest hd
    exact noop (make_data_wide_screen d) first2 rest2 hl2 (by rw [hw2, hh2])

/-- Witness for claim C5: a 16 x 9 page is already at the 16:9 target
width, so the pass returns it unchanged. -/
theorem claim_C5_witness : make_data_wide_screen c5_data = c5_data := by
  have hw : ((16 : ℤ)) = pyround (((9 : ℤ) * 16 : ℚ) / 9) := by
    have hq : (((9 : ℤ) * 16 : ℚ) / 9) = 16 := by norm_num
    rw [hq]
    unfold pyround
    norm_num
  exact claim_C5.1 c5_data ⟨⟨16, 9, [⟨"text", "T", some ⟨1, 1, 5, 5⟩⟩]⟩⟩ []
    rfl hw

/-- Counterexample for claim C7: with matching scales 3/2 the page
width/height fields are rewritten to int(3/2) = 1, not to the canvas
dimension 3/2, because update_data_size casts with int(). -/
theorem claim_C7_counterexample :
    resize_data c7_data (1, 1) (3/2, 3/2) = Except.ok c7_out ∧
    ((1 : ℚ)) ≠ (3/2 : ℚ) := by
  constructor
  · have hc : |(3/2 : ℚ) / 1 - (3/2 : ℚ) / 1| < 1/100 := by norm_num
    unfold resize_data
    rw [if_pos hc]
    unfold update_data_size c7_data c7_out
    norm_num [pytrunc]
  · norm_num

/-- Claim C7 (amended): for positive pdf dimensions, resize_data fails
exactly when the horizontal and vertical scales differ by at least 1e-2;
when they agree it applies the single horizontal scale with the
containing (make_int) rounding to every block bbox and every OCR box and
rewrites every page-size field to the int-truncated canvas dimensions. -/
theorem claim_C7 (d : PPData) (pdf_w pdf_h ppt_w ppt_h : ℚ)
    (hw : 0 < pdf_w) (hh : 0 < pdf_h) :
    ((∃ e, resize_data d (pdf_w, pdf_h) (ppt_w, ppt_h) = Except.error e) ↔
      1/100 ≤ |ppt_w / pdf_w - ppt_h / pdf_h|)
    ∧ (∀ out, resize_data d (pdf_w, pdf_h) (ppt_w, ppt_h) = Except.ok out →
      out.layoutParsingResults = d.layoutParsingResults.map (fun e =>
        ⟨⟨pytrunc ppt_w, pytrunc ppt_h,
          e.prunedResult.parsing_res_list.map (fun it =>
            { it with
              block_bbox :=
                it.block_bbox.map
                  (fun b => scale_bbox b (ppt_w / pdf_w) true) })⟩⟩) ∧
      out.ocrResults = d.ocrResults.map (fun e =>
        ⟨⟨e.prunedResult.rec_boxes.map
            (fun b => scale_bbox b (ppt_w / pdf_w) true)⟩⟩) ∧
      out.dataInfo = d.dataInfo.map (fun di =>
        ⟨pytrunc ppt_w, pytrunc ppt_h,
          di.pages.map (fun _ => ⟨pytrunc ppt_w, pytrunc ppt_h⟩)⟩)) := by
  by_cases hc : |ppt_w / pdf_w - ppt_h / pdf_h| < 1/100
  · constructor
    · constructor
      · intro he
        obtain ⟨e, he⟩ := he
        unfold resize_data at he
        rw [if_pos hc] at he
        exact absurd he (by simp)
      · intro hge
        exact absurd hge (not_le.mpr hc)
    · intro out hout
      unfold resize_data at hout
      rw [if_pos hc] at hout
      have hout2 := Except.ok.inj hout
      rw [← hout2]
      unfold update_data_size
      refine ⟨?_, ?_, ?_⟩
      · simp only [List.map_map]
        rfl
      · simp only [List.map_map]
      · rfl
  · constructor
    · constructor
      · intro _
        exact not_lt.mp hc
      · intro _
        refine ⟨"X and Y scale factors disagree", ?_⟩
        unfold resize_data
        rw [if_neg hc]
    · intro out hout
      unfold resize_data at hout
      rw [if_neg hc] at hout
      exact absurd hout (by simp)

/-- Witness for claim C7: with pdf size (2, 1) and canvas (4, 2) the
scales agree, so resize_data does not fail. -/
theorem claim_C7_witness :
    ¬ ∃ e, resize_data c7_data (2, 1) (4, 2) = Except.error e := by
  intro hc
  have h := ((claim_C7 c7_data 2 1 4 2 (by norm_num) (by norm_num)).1).mp hc
  norm_num at h

/-- Counterexample for claim C9: in the full scenario the title shape is
center-aligned, not left-aligned, because create_text_shape assigns left
alignment only to the paragraph_title label. -/
theorem claim_C9_counterexample :
    (process_text_blocks scenario_items [] 1 1000 1000 "Calibri").map
      (fun s => s.alignment) = [TextAlignmentType.Center] ∧
    TextAlignmentType.Center ≠ TextAlignmentType.Left := by
  constructor
  · have hskip_t : should_skip_text_block "title" "Quarterly Results" =
        false := by decide
    have hskip_f :
        should_skip_text_block "footer" "Generated by NotebookLM" =
          true := by decide
    unfold process_text_blocks scenario_items scenario_title scenario_footer
    rw [List.filterMap_cons, List.filterMap_cons, List.filterMap_nil]
    dsimp only
    rw [hskip_t, hskip_f]
    simp [create_text_shape]
  · decide

/-- Claim C9 (amended): on the 1000 x 1000 scenario page the title block
(100, 50, 900, 150) yields exactly one text shape, center-aligned with
font size 75; the watermark footer yields no shape; and after the
background pass the title region expanded by the margin 2, pixel
rectangle [98, 902) x [48, 152), is filled with the single color sampled
for it from the untouched input raster. -/
theorem claim_C9 :
    process_text_blocks scenario_items [] 1 1000 1000 "Calibri" =
      [{ name := "Block_title", text := "Quarterly Results",
         alignment := TextAlignmentType.Center,
         rect := ⟨100, 47, 930, 157⟩, fontHeight := 75,
         fontName := "Calibri" }]
    ∧ (∀ (sampler : Sampler) (raster : Raster) (y x : ℤ),
        48 ≤ y → y < 152 → 98 ≤ x → x < 902 →
        (process_slide_background sampler scenario_items raster 1000
            (1000, 1000)).2 y x =
          (sampler raster 98 48 902 152 20).2) := by
  constructor
  · have hskip_t : should_skip_text_block "title" "Quarterly Results" =
        false := by decide
    have hskip_f :
        should_skip_text_block "footer" "Generated by NotebookLM" =
          true := by decide
    have hlc : get_line_count ⟨100, 50, 900, 150⟩ ([] : List Bbox) = 0 := rfl
    unfold process_text_blocks scenario_items scenario_title scenario_footer
    rw [List.filterMap_cons, List.filterMap_cons, List.filterMap_nil]
    dsimp only
    rw [hskip_t, hskip_f, hlc]
    norm_num [create_text_shape, calculate_font_size, pytrunc]
    refine ⟨by decide, by decide, ?_⟩
    rw [if_neg (by decide : ¬ ("title" : String) = "paragraph_title")]
    norm_num
  · intro sampler raster y x hy1 hy2 hx1 hx2
    have hq_t : scale_bbox_int
        (expand_bbox ⟨100, 50, 900, 150⟩ 2 ((1000 : ℚ), 1000)) 1 =
        ((98 : ℤ), (48 : ℤ), (902 : ℤ), (152 : ℤ)) := by
      norm_num [scale_bbox_int, expand_bbox, pytrunc]
    have hq_f : scale_bbox_int
        (expand_bbox ⟨100, 950, 900, 990⟩ 2 ((1000 : ℚ), 1000)) 1 =
        ((98 : ℤ), (948 : ℤ), (902 : ℤ), (992 : ℤ)) := by
      norm_num [scale_bbox_int, expand_bbox, pytrunc]
    have ht : ∀ img : Raster,
        erase_region sampler img ⟨100, 50, 900, 150⟩ 1 (1000, 1000) =
        (true, fun v u => if 48 ≤ v ∧ v < 152 ∧ 98 ≤ u ∧ u < 902
          then (sampler img 98 48 902 152 20).2 else img v u) := by
      intro img
      simp only [erase_region]
      rw [hq_t]
      dsimp only
      rw [if_neg (by omega)]
    have hf : ∀ img : Raster,
        erase_region sampler img ⟨100, 950, 900, 990⟩ 1 (1000, 1000) =
        (true, fun v u => if 948 ≤ v ∧ v < 992 ∧ 98 ≤ u ∧ u < 902
          then (sampler img 98 948 902 992 20).2 else img v u) := by
      intro img
      simp only [erase_region]
      rw [hq_f]
      dsimp only
      rw [if_neg (by omega)]
    simp only [process_slide_background]
    rw [psb_extract_spec]
    dsimp only
    rw [show (1000 : ℚ) / 1000 = 1 by norm_num]
    unfold psb_erase scenario_items scenario_title scenario_footer
    rw [List.foldl_cons, List.foldl_cons, List.foldl_nil]
    dsimp only
    rw [if_pos (by decide : ("title" : String) ∈ erasable_labels)]
    rw [ht raster]
    dsimp only
    rw [if_pos (by decide : ("footer" : String) ∈ erasable_labels)]
    rw [hf _]
    dsimp only
    rw [if_neg (by omega), if_pos (by omega)]

/-- Witness for claim C9: with a constant sampler returning fill color 7
and a constant raster of 3, the pixel (row 50, column 100) of the
scenario background holds the sampled fill 7. -/
theorem claim_C9_witness :
    (process_slide_background sampler_w9 scenario_items raster_w9 1000
        (1000, 1000)).2 50 100 = 7 := by
  have h := claim_C9.2 sampler_w9 raster_w9 50 100 (by norm_num) (by norm_num)
    (by norm_num) (by norm_num)
  rw [h]
  rfl

/-- Counterexample for claim C4: on a 20 x 9 page the crop band is
[2, 18]; the zero-width block bbox (2, 0, 2, 5) lies entirely inside the
band (2 <= x1 and x2 <= 18) yet the crop branch drops it, because the
keep test x2 > left fails at x2 = left = 2 -- so a block entirely inside
[left, right] does not always keep its width; it can be absent. -/
theorem claim_C4_counterexample :
    ((2 : ℤ) : ℚ) ≤ (Bbox.mk 2 0 2 5).x1 ∧
    (Bbox.mk 2 0 2 5).x2 ≤ ((18 : ℤ) : ℚ) ∧
    crop_block 2 16 c4ce_block = none ∧
    (make_data_wide_screen c4ce_data).layoutParsingResults.map
      (fun e => e.prunedResult.parsing_res_list) = [[]] := by
  have hnone : crop_block 2 16 c4ce_block = none := by
    unfold crop_block c4ce_block
    dsimp only
    rw [if_neg (by norm_num)]
  refine ⟨by norm_num, by norm_num, hnone, ?_⟩
  have hpy : pyround ((((9 : ℤ) : ℚ)) * 16 / 9) = 16 := by
    rw [show ((((9 : ℤ) : ℚ)) * 16 / 9) = 16 by norm_num]
    unfold pyround
    norm_num
  unfold make_data_wide_screen c4ce_data
  dsimp only
  rw [hpy]
  rw [if_neg (by decide : ¬ (16 : ℤ) = 20),
    if_neg (by decide : ¬ (20 : ℤ) < 16)]
  rw [show ((20 : ℤ) - 16).fdiv 2 = 2 from by decide]
  unfold update_data_size
  dsimp only
  simp only [List.map_cons, List.map_nil, List.map_map]
  simp [hnone]
